import Mathlib

/-!
Verification of the natural-language specification of the ottoordersystem
repository (a Django food-delivery marketplace) against its source code.

The development shallowly embeds the relevant Python functions:
string-level helpers mirror `str.strip` / `str.upper` / `str.startswith`,
Decimal money amounts are modelled as integer cents, session dictionaries
as association lists, and the database as explicit record states threaded
through the view functions.
-/

/- ================================================================
   Python string primitives (shop/ai_service.py, shop/views.py use
   str.strip, str.upper, str.lower, str.startswith on ASCII data)
   ================================================================ -/

/-- The whitespace characters removed by Python `str.strip()` (ASCII part). -/
def pyIsSpace (c : Char) : Bool :=
  c = ' ' || c = '\t' || c = '\n' || c = '\r' || c = '\x0b' || c = '\x0c'

/-- `str.strip()` on a character list: drop whitespace from both ends. -/
def pyStripChars (l : List Char) : List Char :=
  ((l.dropWhile pyIsSpace).reverse.dropWhile pyIsSpace).reverse

/-- `str.strip()` on a string. -/
def pyStrip (s : String) : String :=
  ⟨pyStripChars s.data⟩

/-- `str.upper()` (ASCII): uppercase every character. -/
def pyUpper (l : List Char) : List Char :=
  l.map Char.toUpper

/-- `str.lower()` (ASCII): lowercase every character. -/
def pyLower (l : List Char) : List Char :=
  l.map Char.toLower

/- ================================================================
   C1 / C2 : shop/ai_service.py  query_database
   ================================================================ -/

/-- The whitelist check of `query_database` (ai_service.py line 42):
`sql_query.strip().upper().startswith('SELECT')`. -/
def passesWhitelist (sql : String) : Bool :=
  "SELECT".data.isPrefixOf (pyUpper (pyStripChars sql.data))

/-- Modelled from the spec: the execution of an SQL string by the database
driver (`connection.cursor().execute`) is not part of this repository.
Following the spec sentence "translates natural-language questions into
read-only SQL", an SQL script is modelled as its semicolon-separated
statements; this function splits a character list at every ';'. -/
def splitOnSemi : List Char → List (List Char)
  | [] => [[]]
  | c :: rest =>
    if c = ';' then [] :: splitOnSemi rest
    else
      match splitOnSemi rest with
      | [] => [[c]]
      | h :: t => (c :: h) :: t

/-- The leading SQL keyword of a statement: strip, uppercase, then take the
first whitespace-free word. -/
def firstKeyword (stmt : List Char) : List Char :=
  (pyUpper (pyStripChars stmt)).takeWhile (fun c => !pyIsSpace c)

/-- Modelled from the spec: SQL keywords that start a statement performing an
insert, update, delete or schema change. -/
def writeKeywords : List (List Char) :=
  ["INSERT".data, "UPDATE".data, "DELETE".data, "DROP".data,
   "ALTER".data, "CREATE".data, "TRUNCATE".data, "REPLACE".data]

/-- A statement is a write statement when its first keyword is one of the
data- or schema-modifying keywords. -/
def isWriteStatement (stmt : List Char) : Bool :=
  decide (firstKeyword stmt ∈ writeKeywords)

/-- Modelled from the spec: an SQL script is read-only when none of its
semicolon-separated statements is a write statement. -/
def sqlReadOnly (sql : String) : Bool :=
  (splitOnSemi sql.data).all (fun stmt => !isWriteStatement stmt)

/-- Outcome of the database driver executing a query string: either the
fetched rows (each row a list of column-name/value pairs) or a raised
exception message. -/
inductive ExecOutcome where
  | rows (rs : List (List (String × String)))
  | raises (msg : String)
deriving DecidableEq

/-- The value `query_database` returns, by shape: the whitelist/exception
error JSON object, the no-data message JSON, or the result rows as JSON. -/
inductive QueryReturn where
  | jsonError (msg : String)
  | jsonMessage (msg : String)
  | jsonRows (rs : List (List (String × String)))
deriving DecidableEq

/-- The error message of the whitelist branch (ai_service.py line 43). -/
def whitelistErrorMsg : String := "为了安全，只允许执行 SELECT 查询。"

/-- The message returned for an empty result set (ai_service.py line 50). -/
def noDataMsg : String := "查询成功，但没有返回任何数据。"

/-- Embeds `query_database` (ai_service.py lines 37-53).  `exec` is the
database driver; the second component records whether the driver was
invoked at all.  The function is total: the Python `except` clause turns a
raised exception into an error JSON value. -/
def query_database (exec : String → ExecOutcome) (sql : String) :
    QueryReturn × Bool :=
  if !passesWhitelist sql then (.jsonError whitelistErrorMsg, false)
  else
    match exec sql with
    | .rows [] => (.jsonMessage noDataMsg, true)
    | .rows (r :: rs) => (.jsonRows (r :: rs), true)
    | .raises m => (.jsonError ("数据库查询出错: " ++ m), true)

/- ================================================================
   Money: Decimal amounts with 2 decimal places, as integer cents
   ================================================================ -/

/-- Two-digit zero-padded decimal rendering of a value below 100. -/
def twoDigits (k : Nat) : String :=
  if k < 10 then "0" ++ Nat.repr k else Nat.repr k

/-- Python `f'{d:.2f}'` on a two-decimal-place `Decimal`, with the amount
modelled as integer cents. -/
def formatCents (n : Int) : String :=
  (if n < 0 then "-" else "") ++ Nat.repr (n.natAbs / 100) ++ "." ++ twoDigits (n.natAbs % 100)

/- ================================================================
   C5 / C9 : shop/views.py  session cart
   ================================================================ -/

/-- A value of the session cart dictionary: `{'name': ..., 'price': ...,
'quantity': ...}` with the price (a string of a two-decimal Decimal) as
cents. -/
structure CartItem where
  name : String
  price : Int
  quantity : Nat
deriving DecidableEq

/-- The session keys the cart code uses: the cart dictionary (keyed by
`str(product_id)`, in insertion order), `cart_shop_id` and `coupon_id`. -/
structure CartSession where
  cart : List (String × CartItem)
  cart_shop_id : Option Nat
  coupon_id : Option Nat
deriving DecidableEq

/-- A `Coupon` row, with `discount_amount` in cents. -/
structure CouponRec where
  code : String
  discount_amount : Int
deriving DecidableEq

/-- Python truthiness of `session.get('coupon_id')`. -/
def couponTruthy : Option Nat → Bool
  | none => false
  | some cid => cid != 0

/-- The dictionary returned by `get_cart_summary` (views.py lines 31-62);
the `coupon` entry holds the coupon's code and formatted discount. -/
structure CartSummary where
  total_price : String
  total_items : Nat
  coupon : Option (String × String)
  discount : String
  final_price : String
deriving DecidableEq

/-- Embeds `get_cart_summary` (views.py lines 31-62).  `coupons` is the
`Coupon` table by id.  The `for` loop accumulating `total_price` and
`total_items` is a fold over the cart dictionary items; the function also
returns the session because the `Coupon.DoesNotExist` branch writes
`session['coupon_id'] = None`. -/
def get_cart_summary (coupons : Nat → Option CouponRec) (s : CartSession) :
    CartSummary × CartSession :=
  let acc := s.cart.foldl
    (fun (a : Int × Nat) kv => (a.1 + kv.2.price * kv.2.quantity, a.2 + kv.2.quantity))
    (0, 0)
  let total_price : Int := acc.1
  let total_items : Nat := acc.2
  let summary : CartSummary :=
    { total_price := formatCents total_price
      total_items := total_items
      coupon := none
      discount := "0.00"
      final_price := formatCents total_price }
  if couponTruthy s.coupon_id then
    match coupons ((s.coupon_id).getD 0) with
    | some c =>
        ({ summary with
            coupon := some (c.code, formatCents c.discount_amount)
            discount := formatCents c.discount_amount
            final_price := formatCents (total_price - c.discount_amount) }, s)
    | none => (summary, { s with coupon_id := none })
  else
    (summary, s)

/-- The product fields the cart operations read: owning shop, name, and
price in cents. -/
structure ProductInfo where
  shop : Nat
  name : String
  price : Int
deriving DecidableEq

/-- Dictionary update `cart[k] = v` on an association list: replace in
place when the key is present, append otherwise. -/
def dictSet (cart : List (String × CartItem)) (k : String) (v : CartItem) :
    List (String × CartItem) :=
  if cart.any (fun kv => kv.1 = k) then
    cart.map (fun kv => if kv.1 = k then (k, v) else kv)
  else
    cart ++ [(k, v)]

/-- Dictionary deletion `del cart[k]` on an association list. -/
def dictDel (cart : List (String × CartItem)) (k : String) :
    List (String × CartItem) :=
  cart.filter (fun kv => kv.1 ≠ k)

/-- Dictionary lookup on an association list. -/
def dictGet (cart : List (String × CartItem)) (k : String) : Option CartItem :=
  (cart.find? (fun kv => kv.1 = k)).map (·.2)

/-- How a cart operation ended, by branch of the view. -/
inductive CartOpResult where
  | ok
  | rejectedOtherShop
  | notFound
deriving DecidableEq

/-- Shared body of `add_to_cart_api` (views.py lines 131-156) and
`add_to_cart` (lines 1299-1315): the two differ only in that the API
version also clears `coupon_id` when starting a fresh cart.  A missing
product makes `get_object_or_404` raise, leaving the session unchanged. -/
def addToCartCore (clearCoupon : Bool) (products : Nat → Option ProductInfo)
    (product_id : Nat) (s : CartSession) : CartOpResult × CartSession :=
  match products product_id with
  | none => (.notFound, s)
  | some p =>
    if s.cart ≠ [] && s.cart_shop_id != some p.shop then
      (.rejectedOtherShop, s)
    else
      let s1 :=
        if s.cart = [] then
          { s with cart_shop_id := some p.shop
                   coupon_id := if clearCoupon then none else s.coupon_id }
        else s
      let pid_str := Nat.repr product_id
      let cart' :=
        match dictGet s1.cart pid_str with
        | some item => dictSet s1.cart pid_str { item with quantity := item.quantity + 1 }
        | none => dictSet s1.cart pid_str { name := p.name, price := p.price, quantity := 1 }
      (.ok, { s1 with cart := cart' })

/-- Embeds `add_to_cart_api` (views.py lines 131-156). -/
def add_to_cart_api (products : Nat → Option ProductInfo) (product_id : Nat)
    (s : CartSession) : CartOpResult × CartSession :=
  addToCartCore true products product_id s

/-- Embeds the synchronous `add_to_cart` (views.py lines 1299-1315). -/
def add_to_cart (products : Nat → Option ProductInfo) (product_id : Nat)
    (s : CartSession) : CartOpResult × CartSession :=
  addToCartCore false products product_id s

/-- `if not cart: session.pop('cart_shop_id'); session.pop('coupon_id')`. -/
def popIfEmpty (s : CartSession) : CartSession :=
  if s.cart = [] then { s with cart_shop_id := none, coupon_id := none } else s

/-- Embeds `update_cart_item_api` (views.py lines 159-178): set the
quantity when positive, delete the item otherwise, and drop the shop and
coupon keys when the cart becomes empty. -/
def update_cart_item_api (item_id : String) (quantity : Int) (s : CartSession) :
    CartOpResult × CartSession :=
  match dictGet s.cart item_id with
  | some item =>
      let cart' :=
        if 0 < quantity then dictSet s.cart item_id { item with quantity := quantity.toNat }
        else dictDel s.cart item_id
      (.ok, popIfEmpty { s with cart := cart' })
  | none => (.notFound, s)

/-- Embeds `remove_cart_item_api` (views.py lines 181-195). -/
def remove_cart_item_api (item_id : String) (s : CartSession) :
    CartOpResult × CartSession :=
  match dictGet s.cart item_id with
  | some _ => (.ok, popIfEmpty { s with cart := dictDel s.cart item_id })
  | none => (.notFound, s)

/-- Embeds the synchronous `update_cart_item` (views.py lines 1317-1333):
`quantity = none` is the `ValueError` branch of `int(...)`, which leaves
the cart unchanged; the empty-cart pop runs unconditionally afterwards. -/
def update_cart_item (item_id : String) (quantity : Option Int) (s : CartSession) :
    CartOpResult × CartSession :=
  let cart' :=
    match dictGet s.cart item_id, quantity with
    | some item, some q =>
        if 0 < q then dictSet s.cart item_id { item with quantity := q.toNat }
        else dictDel s.cart item_id
    | _, _ => s.cart
  (.ok, popIfEmpty { s with cart := cart' })

/-- Embeds the synchronous `remove_cart_item` (views.py lines 1335-1345). -/
def remove_cart_item (item_id : String) (s : CartSession) :
    CartOpResult × CartSession :=
  let cart' :=
    match dictGet s.cart item_id with
    | some _ => dictDel s.cart item_id
    | none => s.cart
  (.ok, popIfEmpty { s with cart := cart' })

/-- The cart operations claim C9 ranges over. -/
inductive CartAction where
  | addApi (product_id : Nat)
  | addSync (product_id : Nat)
  | updateApi (item_id : String) (quantity : Int)
  | removeApi (item_id : String)
  | updateSync (item_id : String) (quantity : Option Int)
  | removeSync (item_id : String)
deriving DecidableEq

/-- Dispatch a cart action to the view embedding it names. -/
def applyCartAction (products : Nat → Option ProductInfo) :
    CartAction → CartSession → CartOpResult × CartSession
  | .addApi pid, s => add_to_cart_api products pid s
  | .addSync pid, s => add_to_cart products pid s
  | .updateApi k q, s => update_cart_item_api k q s
  | .removeApi k, s => remove_cart_item_api k s
  | .updateSync k q, s => update_cart_item k q s
  | .removeSync k, s => remove_cart_item k s

/-- A cart entry is the id of an existing product of shop `sid`; the
property depends only on the entry's key. -/
def entryOk (products : Nat → Option ProductInfo) (sid : Nat)
    (kv : String × CartItem) : Prop :=
  ∃ pid p, kv.1 = Nat.repr pid ∧ products pid = some p ∧ p.shop = sid

/-- The session invariant of claim C9: a non-empty cart names a shop in
`cart_shop_id`, and every cart key is the id of an existing product of
that shop. -/
def CartInv (products : Nat → Option ProductInfo) (s : CartSession) : Prop :=
  s.cart ≠ [] →
    ∃ sid, s.cart_shop_id = some sid ∧ ∀ kv ∈ s.cart, entryOk products sid kv

/- ================================================================
   C3 / C4 : shop/views.py  order_pay, rider_accept_order,
             rider_update_order_status
   ================================================================ -/

/-- The `Order.status` choices (models.py lines 173-181). -/
inductive OrderStatus where
  | PENDING
  | PAID
  | PREPARING
  | READY_FOR_PICKUP
  | DELIVERING
  | DELIVERED
  | CANCELLED
deriving DecidableEq

/-- The fields of an `Order` row the three status views read or write.
Items are (product id, quantity) pairs; timestamps are abstract ticks. -/
structure OrderRec where
  status : OrderStatus
  rider : Option Nat
  paid_at : Option Nat
  accepted_at : Option Nat
  delivered_at : Option Nat
  items : List (Nat × Nat)
deriving DecidableEq

/-- The database slice the status views touch: the stock column of the
`Product` table and one focal order. -/
structure OrderDb where
  stock : Nat → Nat
  order : OrderRec

/-- How a status view ended, one constructor per `messages.*` call (or 404
response) in the source. -/
inductive OrderViewResult where
  | infoCannotPay
  | errInsufficientStock (product_id : Nat)
  | okPaid
  | errTooManyOrders
  | notFound
  | okAccepted
  | okReadyForPickup
  | okDelivered
  | errInvalidStatusUpdate
deriving DecidableEq

/-- A view outcome that tells the user the requested change did not
happen: `messages.error`, `messages.info` on the cannot-pay branch, or an
HTTP 404 from `get_object_or_404`. -/
def isFailureReport : OrderViewResult → Bool
  | .infoCannotPay => true
  | .errInsufficientStock _ => true
  | .errTooManyOrders => true
  | .notFound => true
  | .errInvalidStatusUpdate => true
  | _ => false

/-- Pointwise update of the stock column. -/
def setStock (stock : Nat → Nat) (pid v : Nat) : Nat → Nat :=
  fun q => if q = pid then v else stock q

/-- The `for item in order.items.all()` loop of `order_pay` (views.py
lines 795-801): decrement and save each product's stock in turn; on the
first insufficient item return the failing product id together with the
stock column as already modified, because the early `return` exits the
`transaction.atomic()` block normally and therefore commits. -/
def pay_items_loop (stock : Nat → Nat) :
    List (Nat × Nat) → (Nat × (Nat → Nat)) ⊕ (Nat → Nat)
  | [] => Sum.inr stock
  | (pid, q) :: rest =>
      if stock pid < q then Sum.inl (pid, stock)
      else pay_items_loop (setStock stock pid (stock pid - q)) rest

/-- Sequential stock decrement over a list of order items. -/
def decrementAll (stock : Nat → Nat) (items : List (Nat × Nat)) : Nat → Nat :=
  items.foldl (fun st pq => setStock st pq.1 (st pq.1 - pq.2)) stock

/-- Embeds `order_pay` (views.py lines 789-806) on a PENDING check, the
stock loop, and the final status/paid_at write. -/
def order_pay (now : Nat) (db : OrderDb) : OrderViewResult × OrderDb :=
  if db.order.status ≠ .PENDING then (.infoCannotPay, db)
  else
    match pay_items_loop db.stock db.order.items with
    | Sum.inl (pid, st) => (.errInsufficientStock pid, { db with stock := st })
    | Sum.inr st =>
        (.okPaid,
          { db with
              stock := st
              order := { db.order with status := .PAID, paid_at := some now } })

/-- Embeds `rider_accept_order` (views.py lines 816-829).
`deliveringCount` is `rider.orders.filter(status='DELIVERING').count()`;
the `get_object_or_404` filter requires status PAID and no rider. -/
def rider_accept_order (now rider_id deliveringCount : Nat) (o : OrderRec) :
    OrderViewResult × OrderRec :=
  if deliveringCount ≥ 10 then (.errTooManyOrders, o)
  else if o.status = .PAID ∧ o.rider = none then
    (.okAccepted,
      { o with rider := some rider_id, status := .DELIVERING, accepted_at := some now })
  else (.notFound, o)

/-- Embeds the POST branch of `rider_update_order_status` (views.py lines
831-847).  The requested status arrives as the raw `request.POST` string;
the `get_object_or_404` filter requires the order's rider to be the
requesting rider. -/
def rider_update_order_status (now rider_id : Nat) (new_status : String)
    (o : OrderRec) : OrderViewResult × OrderRec :=
  if o.rider ≠ some rider_id then (.notFound, o)
  else if new_status = "READY_FOR_PICKUP" ∧ o.status = .PAID then
    (.okReadyForPickup, { o with status := .READY_FOR_PICKUP })
  else if new_status = "DELIVERED" ∧ o.status = .DELIVERING then
    (.okDelivered, { o with status := .DELIVERED, delivered_at := some now })
  else (.errInvalidStatusUpdate, o)

/-- The order-status step relation of claim C4: one action per view that
can change `Order.status`. -/
inductive OrderAction where
  | pay (now : Nat)
  | accept (now rider_id deliveringCount : Nat)
  | updateStatus (now rider_id : Nat) (new_status : String)

/-- Dispatch an order action to the view embedding it names. -/
def applyOrderAction : OrderAction → OrderDb → OrderViewResult × OrderDb
  | .pay now, db => order_pay now db
  | .accept now r cnt, db =>
      let (res, o) := rider_accept_order now r cnt db.order
      (res, { db with order := o })
  | .updateStatus now r ns, db =>
      let (res, o) := rider_update_order_status now r ns db.order
      (res, { db with order := o })

/- ================================================================
   C6 : shop/views.py  product_import
   ================================================================ -/

/-- A CSV row as `csv.DictReader` delivers it to `product_import`: the
raw string of each column (`row.get(..., default)`). -/
structure CsvRow where
  sku : String
  name : String
  price : String
  stock : String
  category : String
  description : String
  is_active : String
deriving DecidableEq

/-- A `Product` row as `product_import` writes it. -/
structure ProductRow where
  shop : Nat
  sku : String
  name : String
  description : String
  price : Int
  stock : Int
  category : Option String
  is_active : Bool
deriving DecidableEq

/-- The database slice `product_import` touches: the `Product` table and
the `ProductCategory` table (a category is a (shop id, name) pair). -/
structure ImportDb where
  products : List ProductRow
  categories : List (Nat × String)
deriving DecidableEq

/-- The parsed payload of one valid CSV row, before the merge decision. -/
structure ParsedRow where
  sku : String
  name : String
  description : String
  price : Int
  stock : Int
  category : Option String
  is_active : Bool
deriving DecidableEq

/-- `row.get('is_active', 'true').strip().lower() in ['true', '1', 'yes']`. -/
def parseIsActive (raw : String) : Bool :=
  let v : List Char := pyLower (pyStripChars raw.data)
  v = "true".data || v = "1".data || v = "yes".data

/-- Per-row validation of `product_import` (views.py lines 396-417),
state-independent: empty sku or name, or a `price`/`stock` string the
Python `Decimal`/`int` constructors reject, fail the row.  `parseDec` and
`parseInt` are those library constructors, abstracted. -/
def rowCheck (parseDec parseInt : String → Option Int) (row : CsvRow) :
    Option ParsedRow :=
  let sku := pyStrip row.sku
  if sku = "" then none
  else
    let name := pyStrip row.name
    if name = "" then none
    else
      match parseDec (pyStrip row.price) with
      | none => none
      | some price =>
        match parseInt (pyStrip row.stock) with
        | none => none
        | some stock =>
            some { sku := sku
                   name := name
                   description := pyStrip row.description
                   price := price
                   stock := stock
                   category :=
                     let c := pyStrip row.category
                     if c = "" then none else some c
                   is_active := parseIsActive row.is_active }

/-- `ProductCategory.objects.get_or_create(name=..., shop=...)` (views.py
line 415): runs immediately while the row is parsed, in autocommit mode,
so the created row survives whatever happens later in the import. -/
def categoryGetOrCreate (shop : Nat) (name : String) (cats : List (Nat × String)) :
    List (Nat × String) :=
  if (shop, name) ∈ cats then cats else cats ++ [(shop, name)]

/-- Result of one `product_import` run: the per-row error messages, or
the per-branch success counters, or the fatal branch of the outer
`except` (an `IntegrityError` from `bulk_create` on a duplicate sku). -/
inductive ImportResult where
  | rowErrors (lines : List Nat)
  | success (created updated : Nat)
  | fatalError
deriving DecidableEq

/-- The `Product` row built from one parsed CSV row of the merchant's
shop (the `product_data` dictionary plus the sku, views.py lines
419-439). -/
def toProductRow (shop : Nat) (parsed : ParsedRow) : ProductRow :=
  { shop := shop, sku := parsed.sku, name := parsed.name
    description := parsed.description, price := parsed.price
    stock := parsed.stock, category := parsed.category
    is_active := parsed.is_active }

/-- One pass of the row loop of `product_import` (views.py lines
393-444), threading the category table (mutated eagerly by
`get_or_create`) and accumulating error line numbers, pending creates and
pending updates.  `existing` is the sku set of the merchant's products,
computed once before the loop. -/
def importLoop (parseDec parseInt : String → Option Int) (shop : Nat)
    (existing : List String) :
    List (Nat × CsvRow) → List (Nat × String) →
    List Nat × List ProductRow × List (String × ParsedRow) × List (Nat × String)
  | [], cats => ([], [], [], cats)
  | (line, row) :: rest, cats =>
    match rowCheck parseDec parseInt row with
    | none =>
        let (errs, creates, updates, cats') :=
          importLoop parseDec parseInt shop existing rest cats
        (line :: errs, creates, updates, cats')
    | some parsed =>
        let cats1 :=
          match parsed.category with
          | some cname => categoryGetOrCreate shop cname cats
          | none => cats
        let (errs, creates, updates, cats') :=
          importLoop parseDec parseInt shop existing rest cats1
        if parsed.sku ∈ existing then
          (errs, creates, (parsed.sku, parsed) :: updates, cats')
        else
          (errs, toProductRow shop parsed :: creates, updates, cats')

/-- Apply one pending update: every product of the shop with this sku
takes the parsed data (the sku itself is not touched on update). -/
def applyUpdate (shop : Nat) (upd : String × ParsedRow) (ps : List ProductRow) :
    List ProductRow :=
  ps.map fun p =>
    if p.shop = shop ∧ p.sku = upd.1 then
      { p with name := upd.2.name, description := upd.2.description
               price := upd.2.price, stock := upd.2.stock
               category := upd.2.category, is_active := upd.2.is_active }
    else p

/-- The sku-indexed snapshot of the merchant's products taken before the
loop (`existing_skus`, views.py line 391): the skus of the shop's
products. -/
def importExisting (shop : Nat) (db : ImportDb) : List String :=
  (db.products.filter (fun p => p.shop = shop)).map (fun p => p.sku)

/-- CSV rows paired with their reported line numbers (`enumerate` with
`line_num = i + 2`, views.py lines 393-394). -/
def numberRows (rows : List CsvRow) : List (Nat × CsvRow) :=
  ((List.range rows.length).zip rows).map (fun ir => (ir.1 + 2, ir.2))

/-- Embeds `product_import` (views.py lines 369-466) after the file
checks: run the row loop; if any row errored report the messages and
leave the products alone; otherwise bulk-create and bulk-update inside
one transaction, where a created sku that already exists (in any shop) or
appears twice violates the unique sku constraint, raises, and rolls the
transaction back into the fatal branch.  In every case the category table
keeps the rows `get_or_create` added during the loop. -/
def product_import (parseDec parseInt : String → Option Int) (shop : Nat)
    (rows : List CsvRow) (db : ImportDb) : ImportResult × ImportDb :=
  let existing := importExisting shop db
  let numbered := numberRows rows
  let r := importLoop parseDec parseInt shop existing numbered db.categories
  let errs := r.1
  let createsInOrder := r.2.1
  let updatesInOrder := r.2.2.1
  let cats' := r.2.2.2
  if errs ≠ [] then
    (.rowErrors errs, { db with categories := cats' })
  else
    let allSkus := db.products.map (·.sku)
    if createsInOrder.any (fun p => p.sku ∈ allSkus) ||
       ¬ (createsInOrder.map (·.sku)).Nodup then
      (.fatalError, { db with categories := cats' })
    else
      let afterUpdates := updatesInOrder.foldl (fun ps u => applyUpdate shop u ps) db.products
      (.success createsInOrder.length updatesInOrder.length,
        { products := afterUpdates ++ createsInOrder, categories := cats' })

/-- The successfully parsed rows of a CSV, in order. -/
def importParsed (parseDec parseInt : String → Option Int) (rows : List CsvRow) :
    List ParsedRow :=
  rows.filterMap (rowCheck parseDec parseInt)

/-- The products an error-free import creates: one per parsed row whose
sku does not belong to the merchant's shop. -/
def importCreates (parseDec parseInt : String → Option Int) (shop : Nat)
    (rows : List CsvRow) (db : ImportDb) : List ProductRow :=
  ((importParsed parseDec parseInt rows).filter
      (fun pr => pr.sku ∉ importExisting shop db)).map (toProductRow shop)

/-- The updates an error-free import performs: one per parsed row whose
sku matches a product of the merchant's shop. -/
def importUpdates (parseDec parseInt : String → Option Int) (shop : Nat)
    (rows : List CsvRow) (db : ImportDb) : List (String × ParsedRow) :=
  ((importParsed parseDec parseInt rows).filter
      (fun pr => pr.sku ∈ importExisting shop db)).map (fun pr => (pr.sku, pr))

/- ================================================================
   C7 : site_settings/admin.py  mask_value, SiteSettingAdmin
   ================================================================ -/

/-- The sensitive setting keys (site_settings/admin.py line 5). -/
def SENSITIVE_KEYS : List String := ["OPENAI_API_KEY", "DEEPSEEK_API_KEY"]

/-- Embeds `mask_value` (site_settings/admin.py lines 7-11) at the default
`show_chars=4`: a truthy value longer than 8 characters becomes its first
four characters, `...`, and its last four characters; anything else is
returned as is. -/
def mask_value (value : String) : String :=
  if value ≠ "" ∧ 8 < value.data.length then
    ⟨value.data.take 4 ++ "...".data ++ value.data.drop (value.data.length - 4)⟩
  else value

/-- The value the admin change list and edit form display for a setting
(`masked_value` and `get_form` of `SiteSettingAdmin`). -/
def admin_display_value (key value : String) : String :=
  if key ∈ SENSITIVE_KEYS then mask_value value else value

/-- Embeds `SiteSettingAdmin.save_model` (site_settings/admin.py lines
33-46): `stored` is the value currently in the database and `submitted`
the value from the form.  At this point `obj.value` already holds the
submitted value, so the guard compares the submitted value with the mask
of the submitted value; when it matches, the original is fetched back and
kept, otherwise the submitted value is saved. -/
def save_model (key stored submitted : String) : String :=
  if key ∈ SENSITIVE_KEYS ∧ submitted = mask_value submitted then stored
  else submitted

/- ================================================================
   C8 : shop/signals.py  order_status_changed_handler
   ================================================================ -/

/-- A notification row as the handler creates it: recipient user id and
message text (the link always points at the order detail page). -/
structure NotifRow where
  recipient : Nat
  message : String
deriving DecidableEq

/-- The customer message chosen by the status ladder (signals.py lines
25-37); `none` for PENDING. -/
def customerMessage (pk : Nat) : OrderStatus → Option String
  | .PAID => some ("您的订单 #" ++ Nat.repr pk ++ " 已支付成功，商家正在备货。")
  | .PREPARING => some ("商家已接单，您的订单 #" ++ Nat.repr pk ++ " 正在备货中。")
  | .READY_FOR_PICKUP => some ("您的订单 #" ++ Nat.repr pk ++ " 已备货完成，等待骑手取货。")
  | .DELIVERING => some ("骑手已取货，您的订单 #" ++ Nat.repr pk ++ " 正在飞速向您奔来！")
  | .DELIVERED => some ("您的订单 #" ++ Nat.repr pk ++ " 已送达，欢迎再次光临！")
  | .CANCELLED => some ("很遗憾，您的订单 #" ++ Nat.repr pk ++ " 已被取消。")
  | .PENDING => none

/-- The `update_fields` guard of the handler (signals.py lines 18-20):
skip when the save names its updated fields and `status` is not among
them. -/
def statusExcluded (update_fields : Option (List String)) : Bool :=
  match update_fields with
  | some fs => decide ("status" ∉ fs)
  | none => false

/-- Embeds `order_status_changed_handler` (signals.py lines 6-74),
returning the notification rows the save creates: nothing for a freshly
created order or when `update_fields` excludes `status`; otherwise the
customer notification for the six ladder statuses, a merchant
notification on PAID when the shop has an account, and a rider
notification on CANCELLED when a rider is assigned. -/
def order_status_changed_handler (created : Bool)
    (update_fields : Option (List String)) (pk : Nat) (status : OrderStatus)
    (customer : Nat) (shopAccount : Option Nat) (riderUser : Option Nat) :
    List NotifRow :=
  if created then []
  else if statusExcluded update_fields then []
  else
    (match customerMessage pk status with
     | some m => [{ recipient := customer, message := m }]
     | none => []) ++
    (match status, shopAccount with
     | .PAID, some acct =>
         [{ recipient := acct
            message := "您有新的待处理订单 #" ++ Nat.repr pk ++ "，请尽快备货。" }]
     | _, _ => []) ++
    (match status, riderUser with
     | .CANCELLED, some ru =>
         [{ recipient := ru
            message := "订单 #" ++ Nat.repr pk ++ " 已被取消，您无需再进行配送。" }]
     | _, _ => [])

/-- Number of notifications a user receives from one handler run. -/
def notifCountFor (notifs : List NotifRow) (user : Nat) : Nat :=
  (notifs.filter (fun n => n.recipient = user)).length

/- ================================================================
   C10 : shop/models.py UserProfile, shop/views.py chatbot_api
   ================================================================ -/

/-- The `UserProfile` fields of the AI quota: tokens used today and the
last reset date (days as ticks). -/
structure ProfileRec where
  ai_tokens_used : Nat
  last_token_reset_date : Nat
deriving DecidableEq

/-- `UserProfile.objects.get_or_create` defaults (models.py lines
131-134): a fresh profile has `ai_tokens_used = 0`. -/
def freshProfile (today : Nat) : ProfileRec :=
  { ai_tokens_used := 0, last_token_reset_date := today }

/-- Embeds `UserProfile.reset_tokens_if_needed` (models.py lines 139-144). -/
def reset_tokens_if_needed (today : Nat) (p : ProfileRec) : ProfileRec :=
  if p.last_token_reset_date < today then
    { ai_tokens_used := 0, last_token_reset_date := today }
  else p

/-- The daily token limit of `chatbot_api` (views.py line 232). -/
def DAILY_TOKEN_LIMIT : Nat := 100000

/-- Embeds the quota gate of `chatbot_api` (views.py lines 230-234): get
or create the profile, reset if the day changed, then reject with 429
when the counter is at the limit.  No branch of any view writes a larger
value into `ai_tokens_used`; this is the only place it is read or
written besides the reset. -/
def chatbot_quota_gate (today : Nat) (p : ProfileRec) : Bool × ProfileRec :=
  let p1 := reset_tokens_if_needed today p
  (decide (p1.ai_tokens_used ≥ DAILY_TOKEN_LIMIT), p1)

/-- Run the quota gate over a sequence of request days, recording whether
any request hit the quota-exceeded branch. -/
def runChatbotDays (p : ProfileRec) : List Nat → Bool × ProfileRec
  | [] => (false, p)
  | d :: ds =>
      let (hit, p1) := chatbot_quota_gate d p
      let (hits, p2) := runChatbotDays p1 ds
      (hit || hits, p2)

/- ================================================================
   Concrete instances used by counterexamples and witnesses
   ================================================================ -/

/-- A PENDING order over two products where the first is in stock and the
second is not. -/
def c3_db : OrderDb :=
  { stock := fun p => if p = 1 then 5 else 0
    order :=
      { status := .PENDING, rider := none, paid_at := none, accepted_at := none
        delivered_at := none, items := [(1, 1), (2, 1)] } }

/-- The coupon table of the C5 instances: coupon 1 exists with a 5.00
discount. -/
def c5_coupons : Nat → Option CouponRec :=
  fun i => if i = 1 then some { code := "SAVE5", discount_amount := 500 } else none

/-- An empty cart whose session still holds coupon id 1. -/
def c5_session : CartSession := { cart := [], cart_shop_id := none, coupon_id := some 1 }

/-- A one-item cart with coupon 1 attached. -/
def c5w_session : CartSession :=
  { cart := [("1", { name := "tea", price := 250, quantity := 3 })]
    cart_shop_id := some 7
    coupon_id := some 1 }

/-- The product table of the C9 witness: product 1 belongs to shop 7. -/
def c9_products : Nat → Option ProductInfo :=
  fun pid => if pid = 1 then some { shop := 7, name := "tea", price := 250 } else none

/-- An empty session. -/
def c9_empty_session : CartSession :=
  { cart := [], cart_shop_id := none, coupon_id := none }

/-- Decimal parser of the C6 instances: only the string `1` parses (to
1.00). -/
def c6_parseDec : String → Option Int :=
  fun str => if str = "1" then some 100 else none

/-- Integer parser of the C6 instances: only the string `1` parses. -/
def c6_parseInt : String → Option Int :=
  fun str => if str = "1" then some 1 else none

/-- A CSV whose first row is valid and names a new category, and whose
second row has an empty sku. -/
def c6_rows : List CsvRow :=
  [{ sku := "A", name := "X", price := "1", stock := "1", category := "NEWCAT",
     description := "", is_active := "true" },
   { sku := "", name := "Y", price := "1", stock := "1", category := "",
     description := "", is_active := "true" }]

/-- An empty import database. -/
def c6_db : ImportDb := { products := [], categories := [] }

/-- A product of shop 7 with sku A. -/
def c6w_product : ProductRow :=
  { shop := 7, sku := "A", name := "old", description := "", price := 1,
    stock := 1, category := none, is_active := true }

/-- An import database holding one product of shop 7 with sku A. -/
def c6w_db : ImportDb := { products := [c6w_product], categories := [] }

/-- A valid CSV with one matching-sku row and one fresh-sku row. -/
def c6w_rows : List CsvRow :=
  [{ sku := "A", name := "X", price := "1", stock := "1", category := "",
     description := "", is_active := "true" },
   { sku := "B", name := "Y", price := "1", stock := "1", category := "",
     description := "", is_active := "true" }]

/- ================================================================
   Shared lemmas
   ================================================================ -/

/-- A character list without semicolons is a single SQL statement. -/
theorem splitOnSemi_of_not_mem (l : List Char) (h : ';' ∉ l) : splitOnSemi l = [l] := by
  induction l with
  | nil => rfl
  | cons c rest ih =>
    simp only [List.mem_cons, not_or] at h
    obtain ⟨h1, h2⟩ := h
    unfold splitOnSemi
    rw [if_neg (fun hc => h1 hc.symm), ih h2]

/-- A leading segment whose characters all satisfy `p` survives `takeWhile p`. -/
theorem isPrefixOf_takeWhile (p : Char → Bool) :
    ∀ (pre l : List Char), pre.isPrefixOf l = true → pre.all p = true →
      pre.isPrefixOf (l.takeWhile p) = true := by
  intro pre
  induction pre with
  | nil => intro l _ _; simp [List.isPrefixOf]
  | cons a as ih =>
    intro l hpre hall
    cases l with
    | nil => simp [List.isPrefixOf] at hpre
    | cons b bs =>
      simp only [List.isPrefixOf, Bool.and_eq_true, beq_iff_eq] at hpre
      obtain ⟨hab, hrest⟩ := hpre
      simp only [List.all_cons, Bool.and_eq_true] at hall
      obtain ⟨hpa, has⟩ := hall
      subst hab
      rw [List.takeWhile_cons, if_pos hpa]
      simp only [List.isPrefixOf, Bool.and_eq_true, beq_iff_eq]
      exact ⟨trivial, ih bs hrest has⟩

/-- A whitelisted query's first keyword starts with SELECT. -/
theorem select_leads_firstKeyword (sql : String) (h : passesWhitelist sql = true) :
    "SELECT".data.isPrefixOf (firstKeyword sql.data) = true := by
  unfold passesWhitelist at h
  unfold firstKeyword
  exact isPrefixOf_takeWhile _ _ _ h (by decide)

/-- No write keyword starts with the characters of SELECT. -/
theorem select_not_in_writeKeywords (k : List Char)
    (h : "SELECT".data.isPrefixOf k = true) : k ∉ writeKeywords := by
  rw [List.isPrefixOf_iff_prefix] at h
  obtain ⟨t, ht⟩ := h
  intro hmem
  have hhead : k.head? = some 'S' := by rw [← ht]; rfl
  simp only [writeKeywords, List.mem_cons, List.not_mem_nil, or_false] at hmem
  rcases hmem with h1 | h1 | h1 | h1 | h1 | h1 | h1 | h1 <;>
    (rw [h1] at hhead; exact absurd hhead (by decide))

/- ================================================================
   Claim C1  (corrected)
   ================================================================ -/

/-- C1, counterexample: the script `SELECT 1; DROP TABLE shop_order`
passes the whitelist check of `query_database` — the check inspects only
the first keyword of the whole string — yet it contains a DROP statement,
a schema change, so executing it is not read-only. -/
theorem whitelisted_script_can_write :
    passesWhitelist "SELECT 1; DROP TABLE shop_order" = true ∧
    sqlReadOnly "SELECT 1; DROP TABLE shop_order" = false := by
  decide

/-- C1, amended: a string passing the whitelist check has SELECT as the
first keyword of its leading statement, and when the string contains no
semicolon (a single SQL statement) executing it is read-only. -/
theorem whitelisted_single_statement_is_readonly (sql : String)
    (h : passesWhitelist sql = true) (hsemi : ';' ∉ sql.data) :
    "SELECT".data.isPrefixOf (firstKeyword sql.data) = true ∧
    sqlReadOnly sql = true := by
  refine ⟨select_leads_firstKeyword sql h, ?_⟩
  unfold sqlReadOnly
  rw [splitOnSemi_of_not_mem sql.data hsemi]
  simp only [List.all_cons, List.all_nil, Bool.and_true, Bool.not_eq_true']
  unfold isWriteStatement
  simp only [decide_eq_false_iff_not]
  exact select_not_in_writeKeywords _ (select_leads_firstKeyword sql h)

/-- C1, witness: the amended theorem applied to a concrete single-statement
SELECT query. -/
theorem whitelisted_single_statement_is_readonly_witness :
    passesWhitelist "SELECT * FROM shop_product" = true ∧
    ';' ∉ "SELECT * FROM shop_product".data ∧
    sqlReadOnly "SELECT * FROM shop_product" = true :=
  ⟨by decide, by decide,
    (whitelisted_single_statement_is_readonly "SELECT * FROM shop_product"
      (by decide) (by decide)).2⟩

/- ================================================================
   Claim C2  (confirmed)
   ================================================================ -/

/-- C2: `query_database` skips execution and returns the error JSON object
exactly when the stripped upper-cased input does not start with SELECT;
every other input is executed and the call returns the rows, the no-data
message on an empty result set, or an error JSON object when execution
raises — the function itself is total. -/
theorem query_database_characterization (exec : String → ExecOutcome) (sql : String) :
    ((query_database exec sql).2 = false ↔ passesWhitelist sql = false)
    ∧ (passesWhitelist sql = false →
        query_database exec sql = (.jsonError whitelistErrorMsg, false))
    ∧ (passesWhitelist sql = true →
        query_database exec sql =
          ((match exec sql with
            | .rows [] => QueryReturn.jsonMessage noDataMsg
            | .rows (r :: rs) => QueryReturn.jsonRows (r :: rs)
            | .raises m => QueryReturn.jsonError ("数据库查询出错: " ++ m)), true)) := by
  by_cases h : passesWhitelist sql
  · rcases hE : exec sql with rs | m
    · cases rs <;> simp [query_database, h, hE]
    · simp [query_database, h, hE]
  · have h' : passesWhitelist sql = false := by simpa using h
    simp [query_database, h']

/-- C2, witness: the characterization applied to a rejected DELETE string
and to an accepted SELECT string against a driver returning no rows. -/
theorem query_database_characterization_witness :
    query_database (fun _ => .rows []) "DELETE FROM shop_order" =
      (.jsonError whitelistErrorMsg, false) ∧
    query_database (fun _ => .rows []) "SELECT 1" = (.jsonMessage noDataMsg, true) := by
  constructor
  · exact (query_database_characterization (fun _ => .rows []) "DELETE FROM shop_order").2.1
      (by decide)
  · have h := (query_database_characterization (fun _ => .rows []) "SELECT 1").2.2 (by decide)
    simpa using h

/- ================================================================
   Claim C3  (code_bug)
   ================================================================ -/

/-- C3: `order_pay` on a PENDING order whose second item lacks stock
reports the insufficient-stock error and leaves status and paid_at alone,
but the stock of product 1 — processed before the failing item — has
already been decremented from 5 to 4 and is committed, because the early
`return` leaves the `transaction.atomic()` block without an exception.
The claim's expected rollback does not happen. -/
theorem order_pay_commits_partial_decrement :
    (order_pay 7 c3_db).1 = .errInsufficientStock 2 ∧
    c3_db.stock 1 = 5 ∧
    (order_pay 7 c3_db).2.stock 1 = 4 ∧
    (order_pay 7 c3_db).2.order.status = .PENDING ∧
    (order_pay 7 c3_db).2.order.paid_at = none := by
  decide

/- ================================================================
   Claim C7  (code_bug)
   ================================================================ -/

/-- C7: the admin displays `mask_value "secretkey123" = "secr...y123"`,
and submitting the distinct new value `"short"` for a sensitive key does
not store it: `save_model` compares the submitted value against the mask
of the submitted value (at that point `obj.value` already holds the
form data), and every string of at most 8 characters equals its own mask,
so the stored secret is silently kept. -/
theorem save_model_discards_short_new_value :
    mask_value "secretkey123" = "secr...y123" ∧
    ("short" : String) ≠ "secr...y123" ∧
    ("short" : String) ≠ "secretkey123" ∧
    admin_display_value "OPENAI_API_KEY" "secretkey123" = "secr...y123" ∧
    save_model "OPENAI_API_KEY" "secretkey123" "short" = "secretkey123" := by
  decide

/- ================================================================
   Claim C10  (confirmed)
   ================================================================ -/

/-- The quota gate never increases the token counter. -/
theorem chatbot_quota_gate_monotone (today : Nat) (q : ProfileRec) :
    (chatbot_quota_gate today q).2.ai_tokens_used ≤ q.ai_tokens_used := by
  unfold chatbot_quota_gate reset_tokens_if_needed
  by_cases hd : q.last_token_reset_date < today <;> simp [hd]

/-- C10: no operation writes a positive value into `ai_tokens_used` — the
quota gate of `chatbot_api` (the only reader) can only keep or reset the
counter — so starting from a freshly created profile (counter 0), every
sequence of chatbot requests keeps the counter at 0 and the 429
quota-exceeded branch is never taken. -/
theorem chatbot_quota_unreachable (days : List Nat) (p : ProfileRec)
    (h : p.ai_tokens_used = 0) :
    (∀ today q, (chatbot_quota_gate today q).2.ai_tokens_used ≤ q.ai_tokens_used) ∧
    (runChatbotDays p days).1 = false ∧
    (runChatbotDays p days).2.ai_tokens_used = 0 := by
  refine ⟨fun today q => chatbot_quota_gate_monotone today q, ?_⟩
  induction days generalizing p with
  | nil => simpa [runChatbotDays] using h
  | cons d ds ih =>
    have hz0 : (reset_tokens_if_needed d p).ai_tokens_used = 0 := by
      unfold reset_tokens_if_needed
      by_cases hd : p.last_token_reset_date < d <;> simp [hd, h]
    have hz : (chatbot_quota_gate d p).2.ai_tokens_used = 0 := by
      simpa [chatbot_quota_gate] using hz0
    have hhit : (chatbot_quota_gate d p).1 = false := by
      simp [chatbot_quota_gate, hz0, DAILY_TOKEN_LIMIT]
    obtain ⟨h1, h2⟩ := ih (chatbot_quota_gate d p).2 hz
    simp [runChatbotDays, hhit, h1, h2]

/-- C10, witness: the theorem applied to a fresh profile and four request
days. -/
theorem chatbot_quota_unreachable_witness :
    (freshProfile 0).ai_tokens_used = 0 ∧
    (runChatbotDays (freshProfile 0) [0, 1, 1, 5]).1 = false :=
  ⟨rfl, (chatbot_quota_unreachable [0, 1, 1, 5] (freshProfile 0) rfl).2.1⟩

/- ================================================================
   Claim C8  (confirmed)
   ================================================================ -/

/-- C8: saving an existing order with its status field updated notifies
the customer exactly once for each non-PENDING status, the shop's account
user exactly once when the status is PAID and the shop has an account,
and the rider's user exactly once when the status is CANCELLED and a
rider is assigned (counting under distinct role users); saving a newly
created order produces no notification. -/
theorem notification_fanout (uf : Option (List String)) (pk : Nat)
    (status : OrderStatus) (customer : Nat) (shopAccount riderUser : Option Nat)
    (huf : uf = none ∨ ∃ fs, uf = some fs ∧ "status" ∈ fs)
    (hshop : ∀ a, shopAccount = some a → a ≠ customer)
    (hrider : ∀ r, riderUser = some r → r ≠ customer)
    (hsr : ∀ a r, shopAccount = some a → riderUser = some r → a ≠ r) :
    (order_status_changed_handler true uf pk status customer shopAccount riderUser = []) ∧
    (notifCountFor (order_status_changed_handler false uf pk status customer shopAccount riderUser)
        customer = if status = .PENDING then 0 else 1) ∧
    (∀ a, shopAccount = some a →
      notifCountFor (order_status_changed_handler false uf pk status customer shopAccount riderUser)
          a = if status = .PAID then 1 else 0) ∧
    (∀ r, riderUser = some r →
      notifCountFor (order_status_changed_handler false uf pk status customer shopAccount riderUser)
          r = if status = .CANCELLED then 1 else 0) := by
  have hguard : statusExcluded uf = false := by
    rcases huf with h | ⟨fs, hfs, hmem⟩
    · simp [statusExcluded, h]
    · simp [statusExcluded, hfs, hmem]
  refine ⟨by simp [order_status_changed_handler], ?_, ?_, ?_⟩
  · rcases hSA : shopAccount with _ | a
    · rcases hRU : riderUser with _ | r
      · cases status <;>
          simp [order_status_changed_handler, hguard, notifCountFor, customerMessage]
      · have hr := hrider r hRU
        cases status <;>
          simp [order_status_changed_handler, hguard, notifCountFor, customerMessage, hr,
            Ne.symm hr]
    · have ha := hshop a hSA
      rcases hRU : riderUser with _ | r
      · cases status <;>
          simp [order_status_changed_handler, hguard, notifCountFor, customerMessage, ha,
            Ne.symm ha]
      · have hr := hrider r hRU
        cases status <;>
          simp [order_status_changed_handler, hguard, notifCountFor, customerMessage, ha,
            Ne.symm ha, hr, Ne.symm hr]
  · intro a hSA
    subst hSA
    have hac := hshop a rfl
    have hca := Ne.symm hac
    rcases hRU : riderUser with _ | r
    · cases status <;>
        simp [order_status_changed_handler, hguard, notifCountFor, customerMessage, hac, hca]
    · have har := hsr a r rfl hRU
      have hra := Ne.symm har
      cases status <;>
        simp [order_status_changed_handler, hguard, notifCountFor, customerMessage, hac, hca,
          har, hra]
  · intro r hRU
    subst hRU
    have hrc := hrider r rfl
    have hcr := Ne.symm hrc
    rcases hSA : shopAccount with _ | a
    · cases status <;>
        simp [order_status_changed_handler, hguard, notifCountFor, customerMessage, hrc, hcr]
    · have har := hsr a r hSA rfl
      have hra := Ne.symm har
      cases status <;>
        simp [order_status_changed_handler, hguard, notifCountFor, customerMessage, hrc, hcr,
          har, hra]

/-- C8, witness: the fan-out counts for a PAID save with customer 10,
shop account 20 and rider user 30. -/
theorem notification_fanout_witness :
    notifCountFor (order_status_changed_handler false none 3 .PAID 10 (some 20) (some 30)) 10 = 1 ∧
    notifCountFor (order_status_changed_handler false none 3 .PAID 10 (some 20) (some 30)) 20 = 1 ∧
    notifCountFor (order_status_changed_handler false none 3 .PAID 10 (some 20) (some 30)) 30 = 0 := by
  have h := notification_fanout none 3 .PAID 10 (some 20) (some 30) (Or.inl rfl)
    (by intro a ha; injection ha with h1; subst h1; decide)
    (by intro r hr; injection hr with h1; subst h1; decide)
    (by intro a r ha hr; injection ha with h1; injection hr with h2; subst h1; subst h2; decide)
  refine ⟨by simpa using h.2.1, by simpa using h.2.2.1 20 rfl, by simpa using h.2.2.2 30 rfl⟩

/- ================================================================
   Claim C5  (corrected)
   ================================================================ -/

/-- The accumulating loop of `get_cart_summary` computes the sum of price
times quantity and the sum of quantities. -/
theorem cart_fold_totals (cart : List (String × CartItem)) :
    ∀ (x : Int) (y : Nat),
      cart.foldl
        (fun (a : Int × Nat) kv => (a.1 + kv.2.price * kv.2.quantity, a.2 + kv.2.quantity))
        (x, y)
        = (x + (cart.map fun kv => kv.2.price * (kv.2.quantity : Int)).sum,
           y + (cart.map fun kv => kv.2.quantity).sum) := by
  induction cart with
  | nil => intro x y; simp
  | cons kv rest ih =>
    intro x y
    simp only [List.foldl_cons, List.map_cons, List.sum_cons]
    rw [ih]
    simp only [Prod.mk.injEq]
    constructor <;> ring

/-- C5, counterexample: on an empty cart whose session still carries a
coupon id referring to an existing coupon, `get_cart_summary` does not
return "no coupon": it attaches the coupon, reports its discount, and
produces a negative final price. -/
theorem empty_cart_still_applies_coupon :
    c5_session.cart = [] ∧
    (get_cart_summary c5_coupons c5_session).1.coupon = some ("SAVE5", "5.00") ∧
    (get_cart_summary c5_coupons c5_session).1.discount = "5.00" ∧
    (get_cart_summary c5_coupons c5_session).1.final_price = "-5.00" := by
  decide

/-- C5, amended: `get_cart_summary` returns total_price the exact decimal
sum of price times quantity (2 decimal places), total_items the sum of
quantities, coupon data and final_price = total minus discount whenever
the session's coupon id refers to an existing coupon, and no coupon
otherwise; an empty cart yields zero totals, but the coupon clause still
applies to an empty cart when a stale coupon id is present. -/
theorem get_cart_summary_spec (coupons : Nat → Option CouponRec) (s : CartSession) :
    ((get_cart_summary coupons s).1.total_items
        = (s.cart.map fun kv => kv.2.quantity).sum)
    ∧ ((get_cart_summary coupons s).1.total_price
        = formatCents ((s.cart.map fun kv => kv.2.price * (kv.2.quantity : Int)).sum))
    ∧ (couponTruthy s.coupon_id = true →
        ∀ c, coupons (s.coupon_id.getD 0) = some c →
          (get_cart_summary coupons s).1.coupon
              = some (c.code, formatCents c.discount_amount) ∧
          (get_cart_summary coupons s).1.discount = formatCents c.discount_amount ∧
          (get_cart_summary coupons s).1.final_price
              = formatCents ((s.cart.map fun kv => kv.2.price * (kv.2.quantity : Int)).sum
                  - c.discount_amount))
    ∧ ((couponTruthy s.coupon_id = false ∨ coupons (s.coupon_id.getD 0) = none) →
        (get_cart_summary coupons s).1.coupon = none ∧
        (get_cart_summary coupons s).1.discount = "0.00" ∧
        (get_cart_summary coupons s).1.final_price = (get_cart_summary coupons s).1.total_price)
    ∧ (s.cart = [] → (get_cart_summary coupons s).1.total_price = "0.00"
        ∧ (get_cart_summary coupons s).1.total_items = 0) := by
  have hfold := cart_fold_totals s.cart 0 0
  simp at hfold
  have h00 : formatCents 0 = "0.00" := by decide
  by_cases hct : couponTruthy s.coupon_id
  · rcases hc : coupons (s.coupon_id.getD 0) with _ | c
    · refine ⟨?_, ?_, ?_, ?_, ?_⟩ <;>
        simp [get_cart_summary, hct, hc, hfold, h00] <;>
        (intro hnil; simp [hnil, h00])
    · refine ⟨?_, ?_, ?_, ?_, ?_⟩ <;>
        simp [get_cart_summary, hct, hc, hfold, h00] <;>
        (intro hnil; simp [hnil, h00])
  · have hct' : couponTruthy s.coupon_id = false := by simpa using hct
    refine ⟨?_, ?_, ?_, ?_, ?_⟩ <;>
      simp [get_cart_summary, hct', hfold, h00] <;>
      (intro hnil; simp [hnil, h00])

/-- C5, witness: the amended theorem applied to a one-item cart of 3 units
at 2.50 with the 5.00 coupon attached. -/
theorem get_cart_summary_spec_witness :
    (get_cart_summary c5_coupons c5w_session).1.total_items = 3 ∧
    (get_cart_summary c5_coupons c5w_session).1.discount = "5.00" ∧
    (get_cart_summary c5_coupons c5w_session).1.final_price = "2.50" := by
  have h := get_cart_summary_spec c5_coupons c5w_session
  have hc := h.2.2.1 (by decide) { code := "SAVE5", discount_amount := 500 } (by decide)
  refine ⟨by simpa using h.1, hc.2.1.trans (by decide), hc.2.2.trans (by decide)⟩

/- ================================================================
   Claim C4  (confirmed)
   ================================================================ -/

/-- A successful stock loop performed exactly the sequential decrements. -/
theorem pay_items_loop_success (items : List (Nat × Nat)) :
    ∀ (stock st : Nat → Nat), pay_items_loop stock items = Sum.inr st →
      st = decrementAll stock items := by
  induction items with
  | nil =>
    intro stock st h
    simp only [pay_items_loop] at h
    cases h
    rfl
  | cons pq rest ih =>
    intro stock st h
    rcases pq with ⟨pid, q⟩
    simp only [pay_items_loop] at h
    by_cases hlt : stock pid < q
    · rw [if_pos hlt] at h
      cases h
    · rw [if_neg hlt] at h
      exact ih _ _ h

/-- C4: the three status views permit only the claimed transitions.  Every
call either leaves the order's status unchanged and reports a failure, or
is one of: PENDING to PAID via order_pay (setting paid_at and performing
the stock decrements), PAID to DELIVERING via rider_accept_order (only
with no rider assigned and the accepting rider under 10 DELIVERING
orders), PAID to READY_FOR_PICKUP, or DELIVERING to DELIVERED (setting
delivered_at) via rider_update_order_status by the assigned rider. -/
theorem order_status_step_classification (a : OrderAction) (db : OrderDb) :
    ((applyOrderAction a db).2.order.status = db.order.status ∧
      isFailureReport (applyOrderAction a db).1 = true)
    ∨ (∃ now, a = .pay now ∧ db.order.status = .PENDING ∧
        (applyOrderAction a db).1 = .okPaid ∧
        (applyOrderAction a db).2.order.status = .PAID ∧
        (applyOrderAction a db).2.order.paid_at = some now ∧
        (applyOrderAction a db).2.stock = decrementAll db.stock db.order.items)
    ∨ (∃ now rid cnt, a = .accept now rid cnt ∧ cnt < 10 ∧
        db.order.status = .PAID ∧ db.order.rider = none ∧
        (applyOrderAction a db).1 = .okAccepted ∧
        (applyOrderAction a db).2.order.status = .DELIVERING ∧
        (applyOrderAction a db).2.order.rider = some rid ∧
        (applyOrderAction a db).2.order.accepted_at = some now)
    ∨ (∃ now rid, a = .updateStatus now rid "READY_FOR_PICKUP" ∧
        db.order.rider = some rid ∧ db.order.status = .PAID ∧
        (applyOrderAction a db).1 = .okReadyForPickup ∧
        (applyOrderAction a db).2.order.status = .READY_FOR_PICKUP)
    ∨ (∃ now rid, a = .updateStatus now rid "DELIVERED" ∧
        db.order.rider = some rid ∧ db.order.status = .DELIVERING ∧
        (applyOrderAction a db).1 = .okDelivered ∧
        (applyOrderAction a db).2.order.status = .DELIVERED ∧
        (applyOrderAction a db).2.order.delivered_at = some now) := by
  rcases a with now | ⟨now, rid, cnt⟩ | ⟨now, rid, ns⟩
  · by_cases hst : db.order.status = .PENDING
    · rcases hloop : pay_items_loop db.stock db.order.items with ⟨pid, st⟩ | st
      · left
        simp [applyOrderAction, order_pay, hst, hloop, isFailureReport]
      · right; left
        refine ⟨now, rfl, hst, ?_⟩
        simp [applyOrderAction, order_pay, hst, hloop]
        exact pay_items_loop_success _ _ _ hloop
    · left
      simp [applyOrderAction, order_pay, hst, isFailureReport]
  · by_cases hcnt : cnt ≥ 10
    · left
      simp [applyOrderAction, rider_accept_order, hcnt, isFailureReport]
    · by_cases hok : db.order.status = .PAID ∧ db.order.rider = none
      · right; right; left
        refine ⟨now, rid, cnt, rfl, by omega, hok.1, hok.2, ?_⟩
        simp [applyOrderAction, rider_accept_order, hcnt, hok]
      · left
        simp [applyOrderAction, rider_accept_order, hcnt, hok, isFailureReport]
  · by_cases hrid : db.order.rider = some rid
    · by_cases hready : ns = "READY_FOR_PICKUP" ∧ db.order.status = .PAID
      · right; right; right; left
        refine ⟨now, rid, by rw [hready.1], hrid, hready.2, ?_⟩
        simp [applyOrderAction, rider_update_order_status, hrid, hready]
      · by_cases hdel : ns = "DELIVERED" ∧ db.order.status = .DELIVERING
        · right; right; right; right
          refine ⟨now, rid, by rw [hdel.1], hrid, hdel.2, ?_⟩
          simp [applyOrderAction, rider_update_order_status, hrid, hready, hdel]
        · left
          simp [applyOrderAction, rider_update_order_status, hrid, hready, hdel,
            isFailureReport]
    · left
      simp [applyOrderAction, rider_update_order_status, hrid, isFailureReport]

/- ================================================================
   Claim C9  (confirmed)
   ================================================================ -/

/-- Every entry of `dictSet cart k v` is the new binding or an old entry. -/
theorem dictSet_mem (cart : List (String × CartItem)) (k : String) (v : CartItem) :
    ∀ kv ∈ dictSet cart k v, kv = (k, v) ∨ kv ∈ cart := by
  intro kv hkv
  unfold dictSet at hkv
  split at hkv
  · obtain ⟨kv0, hkv0, heq⟩ := List.mem_map.mp hkv
    split at heq
    · left; exact heq.symm
    · right; rw [← heq]; exact hkv0
  · rcases List.mem_append.mp hkv with h | h
    · right; exact h
    · left; simpa using h

/-- `dictSet` never empties a dictionary. -/
theorem dictSet_ne_nil (cart : List (String × CartItem)) (k : String) (v : CartItem) :
    dictSet cart k v ≠ [] := by
  unfold dictSet
  split
  · rcases cart with _ | ⟨kv0, rest⟩
    · simp_all
    · simp
  · simp

/-- `dictDel` only removes entries. -/
theorem dictDel_mem (cart : List (String × CartItem)) (k : String) :
    ∀ kv ∈ dictDel cart k, kv ∈ cart := by
  intro kv hkv
  exact (List.mem_filter.mp hkv).1

/-- A successful `dictGet` exhibits an entry with that key. -/
theorem dictGet_some_key (cart : List (String × CartItem)) (k : String)
    (item : CartItem) (h : dictGet cart k = some item) : ∃ v, (k, v) ∈ cart := by
  unfold dictGet at h
  rcases hf : cart.find? (fun kv => kv.1 = k) with _ | kv0
  · rw [hf] at h; cases h
  · have hmem := List.mem_of_find?_eq_some hf
    have hkey : kv0.1 = k := by
      have := List.find?_some hf
      simpa using this
    refine ⟨kv0.2, ?_⟩
    rw [← hkey, Prod.mk.eta]
    exact hmem

/-- When the session leaves `popIfEmpty` with an empty cart, the shop and
coupon keys are gone. -/
theorem popIfEmpty_pops (t : CartSession) (h : (popIfEmpty t).cart = []) :
    (popIfEmpty t).cart_shop_id = none ∧ (popIfEmpty t).coupon_id = none := by
  by_cases ht : t.cart = []
  · simp [popIfEmpty, ht]
  · simp [popIfEmpty, ht] at h

/-- `popIfEmpty` preserves the cart invariant. -/
theorem popIfEmpty_inv (products : Nat → Option ProductInfo) (t : CartSession)
    (hinv : CartInv products t) : CartInv products (popIfEmpty t) := by
  by_cases ht : t.cart = []
  · simp [popIfEmpty, ht, CartInv]
  · simpa [popIfEmpty, ht] using hinv

/-- The shared add-to-cart body preserves the cart invariant. -/
theorem addToCartCore_inv (cc : Bool) (products : Nat → Option ProductInfo)
    (product_id : Nat) (s : CartSession) (hinv : CartInv products s) :
    CartInv products (addToCartCore cc products product_id s).2 := by
  rcases hp : products product_id with _ | p
  · simp only [addToCartCore, hp]
    exact hinv
  · simp only [addToCartCore, hp]
    by_cases hguard : (decide (s.cart ≠ []) && (s.cart_shop_id != some p.shop)) = true
    · rw [if_pos hguard]
      exact hinv
    · rw [if_neg hguard]
      by_cases hne : s.cart = []
      · rw [if_pos hne, hne]
        simp only [dictGet, List.find?_nil, Option.map_none']
        intro _
        refine ⟨p.shop, rfl, ?_⟩
        intro kv hkv
        have hkv2 : kv ∈ dictSet [] (Nat.repr product_id)
            { name := p.name, price := p.price, quantity := 1 } := hkv
        rcases dictSet_mem _ _ _ kv hkv2 with hkv' | hkv'
        · exact ⟨product_id, p, by rw [hkv'], hp, rfl⟩
        · cases hkv'
      · simp only [if_neg hne]
        have hshop : s.cart_shop_id = some p.shop := by
          simp only [Bool.and_eq_true, decide_eq_true_eq, bne_iff_ne, ne_eq, not_and,
            not_not] at hguard
          exact hguard hne
        obtain ⟨sid, hsid, hall⟩ := hinv hne
        have hsidp : sid = p.shop := by
          rw [hsid] at hshop
          exact Option.some.inj hshop
        intro _
        refine ⟨sid, hsid, ?_⟩
        intro kv hkv
        rcases hg : dictGet s.cart (Nat.repr product_id) with _ | item <;>
          rw [hg] at hkv <;>
          rcases dictSet_mem _ _ _ kv hkv with hkv' | hkv'
        · exact ⟨product_id, p, by rw [hkv'], hp, hsidp.symm⟩
        · exact hall kv hkv'
        · exact ⟨product_id, p, by rw [hkv'], hp, hsidp.symm⟩
        · exact hall kv hkv'

/-- The add views never shrink the cart. -/
theorem addToCartCore_cart_ne_nil (cc : Bool) (products : Nat → Option ProductInfo)
    (product_id : Nat) (s : CartSession) (hne : s.cart ≠ []) :
    (addToCartCore cc products product_id s).2.cart ≠ [] := by
  rcases hp : products product_id with _ | p
  · simp only [addToCartCore, hp]
    exact hne
  · simp only [addToCartCore, hp]
    by_cases hguard : (decide (s.cart ≠ []) && (s.cart_shop_id != some p.shop)) = true
    · rw [if_pos hguard]
      exact hne
    · rw [if_neg hguard, if_neg hne]
      rcases hg : dictGet s.cart (Nat.repr product_id) with _ | item <;>
        exact dictSet_ne_nil _ _ _

/-- `update_cart_item_api` preserves the cart invariant. -/
theorem update_cart_item_api_inv (products : Nat → Option ProductInfo)
    (k : String) (q : Int) (s : CartSession) (hinv : CartInv products s) :
    CartInv products (update_cart_item_api k q s).2 := by
  simp only [update_cart_item_api]
  rcases hg : dictGet s.cart k with _ | item
  · exact hinv
  · apply popIfEmpty_inv
    intro _
    obtain ⟨v, hv⟩ := dictGet_some_key _ _ _ hg
    have hsne : s.cart ≠ [] := by
      intro h
      rw [h] at hv
      cases hv
    obtain ⟨sid, hsid, hall⟩ := hinv hsne
    refine ⟨sid, hsid, ?_⟩
    intro kv hkv
    have hkv2 : kv ∈ (if 0 < q then dictSet s.cart k { item with quantity := q.toNat }
        else dictDel s.cart k) := hkv
    by_cases hq : 0 < q
    · rw [if_pos hq] at hkv2
      rcases dictSet_mem _ _ _ kv hkv2 with hkv' | hkv'
      · obtain ⟨pid, p, h1, h2, h3⟩ := hall (k, v) hv
        exact ⟨pid, p, by rw [hkv']; exact h1, h2, h3⟩
      · exact hall kv hkv'
    · rw [if_neg hq] at hkv2
      exact hall kv (dictDel_mem _ _ kv hkv2)

/-- `remove_cart_item_api` preserves the cart invariant. -/
theorem remove_cart_item_api_inv (products : Nat → Option ProductInfo)
    (k : String) (s : CartSession) (hinv : CartInv products s) :
    CartInv products (remove_cart_item_api k s).2 := by
  simp only [remove_cart_item_api]
  rcases hg : dictGet s.cart k with _ | item
  · exact hinv
  · apply popIfEmpty_inv
    intro _
    have hsne : s.cart ≠ [] := by
      obtain ⟨v, hv⟩ := dictGet_some_key _ _ _ hg
      intro h
      rw [h] at hv
      cases hv
    obtain ⟨sid, hsid, hall⟩ := hinv hsne
    exact ⟨sid, hsid, fun kv hkv => hall kv (dictDel_mem _ _ kv hkv)⟩

/-- The synchronous `update_cart_item` preserves the cart invariant. -/
theorem update_cart_item_inv (products : Nat → Option ProductInfo)
    (k : String) (q : Option Int) (s : CartSession) (hinv : CartInv products s) :
    CartInv products (update_cart_item k q s).2 := by
  simp only [update_cart_item]
  apply popIfEmpty_inv
  rcases hg : dictGet s.cart k with _ | item
  · rcases q with _ | qv <;> exact hinv
  · rcases q with _ | qv
    · exact hinv
    · intro _
      obtain ⟨v, hv⟩ := dictGet_some_key _ _ _ hg
      have hsne : s.cart ≠ [] := by
        intro h
        rw [h] at hv
        cases hv
      obtain ⟨sid, hsid, hall⟩ := hinv hsne
      refine ⟨sid, hsid, ?_⟩
      intro kv hkv
      have hkv2 : kv ∈ (if 0 < qv then dictSet s.cart k { item with quantity := qv.toNat }
          else dictDel s.cart k) := hkv
      by_cases hq : 0 < qv
      · rw [if_pos hq] at hkv2
        rcases dictSet_mem _ _ _ kv hkv2 with hkv' | hkv'
        · obtain ⟨pid, p, h1, h2, h3⟩ := hall (k, v) hv
          exact ⟨pid, p, by rw [hkv']; exact h1, h2, h3⟩
        · exact hall kv hkv'
      · rw [if_neg hq] at hkv2
        exact hall kv (dictDel_mem _ _ kv hkv2)

/-- The synchronous `remove_cart_item` preserves the cart invariant. -/
theorem remove_cart_item_sync_inv (products : Nat → Option ProductInfo)
    (k : String) (s : CartSession) (hinv : CartInv products s) :
    CartInv products (remove_cart_item k s).2 := by
  simp only [remove_cart_item]
  apply popIfEmpty_inv
  rcases hg : dictGet s.cart k with _ | item
  · exact hinv
  · intro _
    have hsne : s.cart ≠ [] := by
      obtain ⟨v, hv⟩ := dictGet_some_key _ _ _ hg
      intro h
      rw [h] at hv
      cases hv
    obtain ⟨sid, hsid, hall⟩ := hinv hsne
    exact ⟨sid, hsid, fun kv hkv => hall kv (dictDel_mem _ _ kv hkv)⟩

/-- C9: every cart operation preserves the session invariant (a non-empty
cart names a shop and holds only products of that shop), adding a product
of a different shop is rejected with the session unchanged, and any
operation that leaves the cart empty removes `cart_shop_id` and
`coupon_id` from the session. -/
theorem cart_session_invariant (products : Nat → Option ProductInfo)
    (a : CartAction) (s : CartSession) (hinv : CartInv products s) :
    CartInv products (applyCartAction products a s).2
    ∧ (∀ product_id p, (a = .addApi product_id ∨ a = .addSync product_id) →
        products product_id = some p → s.cart ≠ [] → s.cart_shop_id ≠ some p.shop →
          applyCartAction products a s = (.rejectedOtherShop, s))
    ∧ (s.cart ≠ [] → (applyCartAction products a s).2.cart = [] →
        (applyCartAction products a s).2.cart_shop_id = none ∧
        (applyCartAction products a s).2.coupon_id = none) := by
  refine ⟨?_, ?_, ?_⟩
  · cases a with
    | addApi pid => exact addToCartCore_inv true products pid s hinv
    | addSync pid => exact addToCartCore_inv false products pid s hinv
    | updateApi k q => exact update_cart_item_api_inv products k q s hinv
    | removeApi k => exact remove_cart_item_api_inv products k s hinv
    | updateSync k q => exact update_cart_item_inv products k q s hinv
    | removeSync k => exact remove_cart_item_sync_inv products k s hinv
  · intro pid p ha hp hne hshop
    rcases ha with rfl | rfl <;>
      simp [applyCartAction, add_to_cart_api, add_to_cart, addToCartCore, hp, hne, hshop]
  · intro hne hcempty
    cases a with
    | addApi pid =>
        exact absurd hcempty (addToCartCore_cart_ne_nil true products pid s hne)
    | addSync pid =>
        exact absurd hcempty (addToCartCore_cart_ne_nil false products pid s hne)
    | updateApi k q =>
        revert hcempty
        simp only [applyCartAction, update_cart_item_api]
        rcases hg : dictGet s.cart k with _ | item
        · intro hcempty
          exact absurd hcempty hne
        · intro hcempty
          exact popIfEmpty_pops _ hcempty
    | removeApi k =>
        revert hcempty
        simp only [applyCartAction, remove_cart_item_api]
        rcases hg : dictGet s.cart k with _ | item
        · intro hcempty
          exact absurd hcempty hne
        · intro hcempty
          exact popIfEmpty_pops _ hcempty
    | updateSync k q =>
        exact popIfEmpty_pops _ hcempty
    | removeSync k =>
        exact popIfEmpty_pops _ hcempty

/-- C9, witness: adding product 1 to an empty session keeps the invariant
and records shop 7. -/
theorem cart_session_invariant_witness :
    CartInv c9_products (applyCartAction c9_products (.addApi 1) c9_empty_session).2 ∧
    (applyCartAction c9_products (.addApi 1) c9_empty_session).2.cart_shop_id = some 7 := by
  refine ⟨(cart_session_invariant c9_products (.addApi 1) c9_empty_session ?_).1, by decide⟩
  intro h
  exact absurd rfl h

/- ================================================================
   Claim C6  (corrected)
   ================================================================ -/

/-- `get_or_create` never removes a category. -/
theorem categoryGetOrCreate_mono (shop : Nat) (name : String)
    (cats : List (Nat × String)) : ∀ c ∈ cats, c ∈ categoryGetOrCreate shop name cats := by
  intro c hc
  unfold categoryGetOrCreate
  split
  · exact hc
  · exact List.mem_append_left _ hc

/-- Filtering an optional projection through the second components. -/
theorem filterMap_snd (g : CsvRow → Option ParsedRow) (l : List (Nat × CsvRow)) :
    l.filterMap (fun lr => g lr.2) = (l.map (fun lr => lr.2)).filterMap g := by
  induction l with
  | nil => rfl
  | cons a t ih =>
    cases hg : g a.2 <;> simp [List.filterMap_cons, hg, ih]

/-- The numbered rows project back to the rows. -/
theorem numberRows_snd (rows : List CsvRow) :
    (numberRows rows).map (fun lr => lr.2) = rows := by
  unfold numberRows
  rw [List.map_map]
  exact List.map_snd_zip _ _ (by rw [List.length_range])

/-- When every row parses, the numbered error filter is empty. -/
theorem numberRows_errs_nil (parseDec parseInt : String → Option Int)
    (rows : List CsvRow)
    (hall : ∀ row ∈ rows, rowCheck parseDec parseInt row ≠ none) :
    (numberRows rows).filter
      (fun lr => (rowCheck parseDec parseInt lr.2).isNone) = [] := by
  rw [List.filter_eq_nil_iff]
  intro lr hlr
  have hmem : lr.2 ∈ rows := by
    rw [← numberRows_snd rows]
    exact List.mem_map_of_mem _ hlr
  have h2 := hall lr.2 hmem
  simp [Option.isNone_iff_eq_none]
  exact h2

/-- A failing row makes the numbered error filter non-empty. -/
theorem numberRows_errs_ne_nil (parseDec parseInt : String → Option Int)
    (rows : List CsvRow) (row : CsvRow) (hmem : row ∈ rows)
    (hnone : rowCheck parseDec parseInt row = none) :
    (numberRows rows).filter
      (fun lr => (rowCheck parseDec parseInt lr.2).isNone) ≠ [] := by
  rw [← numberRows_snd rows] at hmem
  obtain ⟨lr, hlr, hsnd⟩ := List.mem_map.mp hmem
  refine List.ne_nil_of_mem (a := lr) (List.mem_filter.mpr ⟨hlr, ?_⟩)
  simp [hsnd, hnone]

/-- The row loop computes: the error lines are the failing rows' line
numbers, the pending creates and updates are the parsed rows partitioned
by sku membership in the shop's sku snapshot, and the category table only
grows. -/
theorem importLoop_spec (parseDec parseInt : String → Option Int) (shop : Nat)
    (existing : List String) :
    ∀ (rows : List (Nat × CsvRow)) (cats : List (Nat × String)),
      (importLoop parseDec parseInt shop existing rows cats).1
          = (rows.filter (fun lr => (rowCheck parseDec parseInt lr.2).isNone)).map
              (fun lr => lr.1)
      ∧ (importLoop parseDec parseInt shop existing rows cats).2.1
          = ((rows.filterMap (fun lr => rowCheck parseDec parseInt lr.2)).filter
              (fun pr => pr.sku ∉ existing)).map (toProductRow shop)
      ∧ (importLoop parseDec parseInt shop existing rows cats).2.2.1
          = ((rows.filterMap (fun lr => rowCheck parseDec parseInt lr.2)).filter
              (fun pr => pr.sku ∈ existing)).map (fun pr => (pr.sku, pr))
      ∧ ∀ c ∈ cats, c ∈ (importLoop parseDec parseInt shop existing rows cats).2.2.2 := by
  intro rows
  induction rows with
  | nil =>
    intro cats
    exact ⟨rfl, rfl, rfl, fun c hc => hc⟩
  | cons lr rest ih =>
    intro cats
    rcases lr with ⟨line, row⟩
    rcases hrc : rowCheck parseDec parseInt row with _ | parsed
    · obtain ⟨h1, h2, h3, h4⟩ := ih cats
      refine ⟨?_, ?_, ?_, ?_⟩
      · simp [importLoop, hrc, h1]
      · simp [importLoop, hrc, h2]
      · simp [importLoop, hrc, h3]
      · intro c hc
        simp only [importLoop, hrc]
        exact h4 c hc
    · have hcats1 : ∀ c ∈ cats,
          c ∈ (match parsed.category with
               | some cname => categoryGetOrCreate shop cname cats
               | none => cats) := by
        rcases hpc : parsed.category with _ | cname
        · intro c hc; exact hc
        · intro c hc; exact categoryGetOrCreate_mono shop cname cats c hc
      obtain ⟨h1, h2, h3, h4⟩ := ih (match parsed.category with
          | some cname => categoryGetOrCreate shop cname cats
          | none => cats)
      by_cases hsku : parsed.sku ∈ existing
      · refine ⟨?_, ?_, ?_, ?_⟩
        · simp [importLoop, hrc, hsku, h1]
        · simp [importLoop, hrc, hsku, h2]
        · simp [importLoop, hrc, hsku, h3]
        · intro c hc
          simp only [importLoop, hrc]
          rw [if_pos hsku]
          exact h4 c (hcats1 c hc)
      · refine ⟨?_, ?_, ?_, ?_⟩
        · simp [importLoop, hrc, hsku, h1]
        · simp [importLoop, hrc, hsku, h2]
        · simp [importLoop, hrc, hsku, h3]
        · intro c hc
          simp only [importLoop, hrc]
          rw [if_neg hsku]
          exact h4 c (hcats1 c hc)

/-- C6, counterexample: importing a CSV whose first row is valid and
names the new category NEWCAT and whose second row fails validation
(empty sku) reports the row error and creates no product, but the
ProductCategory row (7, NEWCAT) is created anyway — `get_or_create` runs
while the rows are parsed, before the error check and outside the
transaction. -/
theorem product_import_error_creates_category :
    (product_import c6_parseDec c6_parseInt 7 c6_rows c6_db).1 = .rowErrors [3] ∧
    (product_import c6_parseDec c6_parseInt 7 c6_rows c6_db).2.products = [] ∧
    c6_db.categories = [] ∧
    (product_import c6_parseDec c6_parseInt 7 c6_rows c6_db).2.categories
      = [(7, "NEWCAT")] := by
  decide

/-- C6, amended: if any CSV row fails validation, the import reports the
failing rows' line numbers and leaves the Product table untouched, but
ProductCategory rows referenced by rows that pass validation are still
created (the category table only ever grows); if every row passes and
the skus of the non-matching rows are pairwise distinct and unused by
any product of any shop, the matching rows update the merchant's
products and the remaining rows create new products, in one atomic step. -/
theorem product_import_spec (parseDec parseInt : String → Option Int) (shop : Nat)
    (rows : List CsvRow) (db : ImportDb) :
    ((∃ row ∈ rows, rowCheck parseDec parseInt row = none) →
      ∃ lines, lines ≠ [] ∧
        (product_import parseDec parseInt shop rows db).1 = .rowErrors lines ∧
        (product_import parseDec parseInt shop rows db).2.products = db.products)
    ∧ (∀ c ∈ db.categories,
        c ∈ (product_import parseDec parseInt shop rows db).2.categories)
    ∧ ((∀ row ∈ rows, rowCheck parseDec parseInt row ≠ none) →
        ((importCreates parseDec parseInt shop rows db).map (fun p => p.sku)).Nodup →
        (∀ sk ∈ (importCreates parseDec parseInt shop rows db).map (fun p => p.sku),
            sk ∉ db.products.map (fun p => p.sku)) →
        (product_import parseDec parseInt shop rows db).1
            = .success (importCreates parseDec parseInt shop rows db).length
                (importUpdates parseDec parseInt shop rows db).length ∧
        (product_import parseDec parseInt shop rows db).2.products
            = (importUpdates parseDec parseInt shop rows db).foldl
                (fun ps u => applyUpdate shop u ps) db.products
              ++ importCreates parseDec parseInt shop rows db) := by
  obtain ⟨h1, h2, h3, h4⟩ :=
    importLoop_spec parseDec parseInt shop (importExisting shop db)
      (numberRows rows) db.categories
  have hparsed : (numberRows rows).filterMap
      (fun lr => rowCheck parseDec parseInt lr.2)
      = importParsed parseDec parseInt rows := by
    rw [filterMap_snd, numberRows_snd]
    rfl
  refine ⟨?_, ?_, ?_⟩
  · rintro ⟨row, hrow, hnone⟩
    have hfil := numberRows_errs_ne_nil parseDec parseInt rows row hrow hnone
    have herr : (importLoop parseDec parseInt shop (importExisting shop db)
        (numberRows rows) db.categories).1 ≠ [] := by
      rw [h1]
      simpa [List.map_eq_nil_iff] using hfil
    refine ⟨_, herr, ?_, ?_⟩
    · simp only [product_import]
      rw [if_pos herr]
    · simp only [product_import]
      rw [if_pos herr]
  · intro c hc
    simp only [product_import]
    split
    · exact h4 c hc
    · split
      · exact h4 c hc
      · exact h4 c hc
  · intro hall hnodup hfresh
    have herrnil : (importLoop parseDec parseInt shop (importExisting shop db)
        (numberRows rows) db.categories).1 = [] := by
      rw [h1, numberRows_errs_nil parseDec parseInt rows hall]
      rfl
    have hcre : (importLoop parseDec parseInt shop (importExisting shop db)
        (numberRows rows) db.categories).2.1
        = importCreates parseDec parseInt shop rows db := by
      rw [h2, hparsed]
      rfl
    have hupd : (importLoop parseDec parseInt shop (importExisting shop db)
        (numberRows rows) db.categories).2.2.1
        = importUpdates parseDec parseInt shop rows db := by
      rw [h3, hparsed]
      rfl
    simp only [product_import]
    rw [if_neg (by simp [herrnil])]
    rw [hcre, hupd]
    split
    · next hg =>
        exfalso
        simp only [Bool.or_eq_true, List.any_eq_true, decide_eq_true_eq] at hg
        rcases hg with hg | hg
        · obtain ⟨p, hp, hmem⟩ := hg
          exact hfresh p.sku (List.mem_map_of_mem _ hp) hmem
        · exact hg hnodup
    · exact ⟨rfl, rfl⟩

/-- C6, witness: an error-free import over a database holding sku A of
shop 7, with one matching row (A, update) and one fresh row (B, create),
succeeds with one create and one update. -/
theorem product_import_spec_witness :
    (product_import c6_parseDec c6_parseInt 7 c6w_rows c6w_db).1 = .success 1 1 := by
  have h := (product_import_spec c6_parseDec c6_parseInt 7 c6w_rows c6w_db).2.2
    (by decide) (by decide) (by decide)
  exact h.1.trans (by decide)
